import Mathlib

/-!
Shallow embedding of the kube event-streaming controller
(`api-server/controllers/controllersv1/kube.go`): the two websocket
handlers `GetPodKubeEvents` and `GetDeploymentKubeEvents`.

Modelling conventions:
- Kubernetes `metav1.Time` / `metav1.MicroTime` values are modelled as `Nat`,
  with `0` standing for the zero time (`IsZero` becomes `= 0`); `Before`
  becomes `<` on `Nat`.
- `time.Now()` inside the sort comparator is modelled by an explicit `now`
  parameter.
- Go's `sort.SliceStable` with a strict `less` derived from a numeric key is
  modelled by Mathlib's `List.insertionSort` with the relation
  `key a ≤ key b`: both are stable sorts with respect to the same total
  preorder, and a stable sort's output is uniquely determined by the
  preorder and the input order, so the two agree on every input.
- Websocket writes are recorded in an output list instead of being performed;
  external collaborators (the lister, the connection) are parameters whose
  success or failure is an explicit argument.
-/

/-- Mirrors `consts.KubeEventResourceKindPod` ("Pod"). -/
def kubeEventResourceKindPod : String := "Pod"

/-- Mirrors the fields of `corev1.Event` used by `kube.go`:
`InvolvedObject.Kind`, `InvolvedObject.UID`, `Message`, `EventTime`,
`LastTimestamp`, `FirstTimestamp`.  A timestamp of `0` is the zero time. -/
structure KubeEvent where
  kind : String
  uid : String
  message : String
  eventTime : Nat
  lastTimestamp : Nat
  firstTimestamp : Nat
deriving DecidableEq, Repr

/-- Mirrors the fields of `corev1.Pod` used by `kube.go`: `UID` and
`Labels` (an association list standing for the string map; a missing key
looks up to `""`, as a Go map read does). -/
structure KubePod where
  uid : String
  labels : List (String × String)
deriving DecidableEq, Repr

/-- Go map read `labels[k]`: the value at `k`, or `""` when absent. -/
def labelGet (labels : List (String × String)) (k : String) : String :=
  ((labels.find? (fun p => p.1 == k)).map Prod.snd).getD ""

/-- The timestamp fallback chain of the `GetDeploymentKubeEvents` sort
comparator (kube.go lines 391-399): explicit event time if set, else
last-observed, else first-observed, else the current instant `now`. -/
def resolveTimestamp (now : Nat) (e : KubeEvent) : Nat :=
  if e.eventTime ≠ 0 then e.eventTime
  else if e.lastTimestamp ≠ 0 then e.lastTimestamp
  else if e.firstTimestamp ≠ 0 then e.firstTimestamp
  else now

/-- Sort relation: ascending by a numeric key (stable via `insertionSort`). -/
def leByKey (key : KubeEvent → Nat) : KubeEvent → KubeEvent → Prop :=
  fun a b => key a ≤ key b

instance (key : KubeEvent → Nat) : DecidableRel (leByKey key) :=
  fun a b => inferInstanceAs (Decidable (key a ≤ key b))

instance (key : KubeEvent → Nat) : IsTotal KubeEvent (leByKey key) :=
  ⟨fun a b => Nat.le_total (key a) (key b)⟩

instance (key : KubeEvent → Nat) : IsTrans KubeEvent (leByKey key) :=
  ⟨fun _ _ _ => Nat.le_trans⟩

/-- Snapshot build of `GetPodKubeEvents` (kube.go lines 156-170): keep the
events accepted by the filter, then stable-sort ascending by
`LastTimestamp` alone (`it.Before(&jt)` on `metav1.Time`). -/
def buildPodSnapshot (filter : KubeEvent → Bool) (events : List KubeEvent) :
    List KubeEvent :=
  List.insertionSort (leByKey (fun e => e.lastTimestamp)) (events.filter filter)

/-- Snapshot build of `GetDeploymentKubeEvents` (kube.go lines 375-412):
keep the events accepted by the filter and whose message is not in the
seen set, then stable-sort ascending by the resolved timestamp. -/
def buildDeploymentSnapshot (now : Nat) (filter : KubeEvent → Bool)
    (seen : List String) (events : List KubeEvent) : List KubeEvent :=
  List.insertionSort (leByKey (resolveTimestamp now))
    (events.filter (fun e => filter e && !(seen.contains e.message)))

/-- Filter construction of `GetPodKubeEvents` (kube.go lines 88-112): with no
`pod_name` query the filter accepts everything; with a pod it accepts
events whose involved object is that pod (kind "Pod" and equal UID). -/
def podEventFilter (podSel : Option KubePod) : KubeEvent → Bool :=
  match podSel with
  | none => fun _ => true
  | some pod => fun event =>
      event.kind == kubeEventResourceKindPod && event.uid == pod.uid

/-- One websocket envelope write, as observed on the connection: either a
success envelope carrying a snapshot payload, or a best-effort error
envelope written by `writeWsError` / the send path's deferred handler. -/
inductive WsWrite where
  | success (payload : List KubeEvent)
  | errorEnvelope (msg : String)
deriving DecidableEq, Repr

/-- True exactly on success envelopes. -/
def WsWrite.isSuccess : WsWrite → Bool
  | .success _ => true
  | .errorEnvelope _ => false

/-- Observable outcome of one `send()` invocation: the envelope writes it
performed in order, how much it added to `failedCount`, and how many
seconds of cooldown (`time.Sleep`) it imposed. -/
structure SendResult where
  writes : List WsWrite
  failedInc : Nat
  cooldownSecs : Nat
deriving DecidableEq, Repr

/-- The `send` closure of `GetPodKubeEvents` (kube.go lines 134-181).
`closedAtStart` is whether `closeCh` is already closed at the initial
`select`; `closedBeforeWrite` is whether it is closed when control reaches
the `WriteJSON` call — the pod variant never looks at it again, which the
ignored parameter records.  `listResult` is the lister outcome (`none` =
error), `writeOk` the `WriteJSON` outcome.  On any failure the deferred
handler writes an error envelope and calls `failed()` (increment by one,
sleep 10 seconds). -/
def podSend (closedAtStart closedBeforeWrite : Bool)
    (listResult : Option (List KubeEvent)) (writeOk : Bool)
    (filter : KubeEvent → Bool) : SendResult :=
  if closedAtStart then ⟨[], 0, 0⟩
  else
    match listResult with
    | none => ⟨[.errorEnvelope "list events"], 1, 10⟩
    | some events =>
      let snap := buildPodSnapshot filter events
      let _ := closedBeforeWrite
      if writeOk then ⟨[.success snap], 0, 0⟩
      else ⟨[.errorEnvelope "ws write json"], 1, 10⟩

/-- The `send` closure of `GetDeploymentKubeEvents` (kube.go lines 352-425).
Identical to the pod variant except: the snapshot build drops seen
messages and sorts by the resolved timestamp, and a second `select` on
`closeCh` runs immediately before `WriteJSON` (lines 414-418), returning
without any write when the channel is closed by then. -/
def deploymentSend (closedAtStart closedBeforeWrite : Bool)
    (listResult : Option (List KubeEvent)) (writeOk : Bool) (now : Nat)
    (filter : KubeEvent → Bool) (seen : List String) : SendResult :=
  if closedAtStart then ⟨[], 0, 0⟩
  else
    match listResult with
    | none => ⟨[.errorEnvelope "list events"], 1, 10⟩
    | some events =>
      let snap := buildDeploymentSnapshot now filter seen events
      if closedBeforeWrite then ⟨[], 0, 0⟩
      else if writeOk then ⟨[.success snap], 0, 0⟩
      else ⟨[.errorEnvelope "ws write json"], 1, 10⟩

/-- External circumstances of one `send()` invocation. -/
structure SendEnv where
  closedAtStart : Bool
  closedBeforeWrite : Bool
  listResult : Option (List KubeEvent)
  writeOk : Bool
  now : Nat
deriving Repr

/-- Runs a sequence of deployment-variant sends, threading `failedCount`
and accumulating the envelope writes.  The `seen` set is threaded
unchanged because the source never inserts into it: `seen` is created at
kube.go line 350 and only ever read (line 381). -/
def runDeploymentSendsAux (filter : KubeEvent → Bool) (seen : List String)
    (failedCount : Nat) (writes : List WsWrite) :
    List SendEnv → Nat × List WsWrite
  | [] => (failedCount, writes)
  | env :: rest =>
    let r := deploymentSend env.closedAtStart env.closedBeforeWrite
      env.listResult env.writeOk env.now filter seen
    runDeploymentSendsAux filter seen (failedCount + r.failedInc)
      (writes ++ r.writes) rest

/-- A deployment-variant session's send history from its initial state:
`failedCount = 0` (line 342) and an empty `seen` map (line 350). -/
def runDeploymentSends (filter : KubeEvent → Bool) (envs : List SendEnv) :
    Nat × List WsWrite :=
  runDeploymentSendsAux filter [] 0 [] envs

/-- The `failedCount` values observed along a deployment-variant send
history: the initial value followed by the value after each send. -/
def deploymentFailedCounts (filter : KubeEvent → Bool) (seen : List String)
    (c0 : Nat) : List SendEnv → List Nat
  | [] => [c0]
  | env :: rest =>
    let r := deploymentSend env.closedAtStart env.closedBeforeWrite
      env.listResult env.writeOk env.now filter seen
    c0 :: deploymentFailedCounts filter seen (c0 + r.failedInc) rest

/-- Mirrors `maxFailed` (kube.go lines 127 and 343). -/
def maxFailed : Nat := 10

/-- Outcome of one iteration of the watchdog loop (kube.go lines 212-230
and 456-474): exit because `closeCh` is closed, exit with the
too-frequent-failures error, or keep waiting for the next tick. -/
inductive WatchdogStep where
  | exitClosed
  | exitError (msg : String)
  | keepWaiting
deriving DecidableEq, Repr

/-- One iteration of the watchdog loop body: return when `closeCh` is
closed; otherwise set the error and return when `failedCount > maxFailed`;
otherwise block on the ticker. -/
def watchdogStep (closed : Bool) (failedCount : Nat) : WatchdogStep :=
  if closed then .exitClosed
  else if failedCount > maxFailed then
    .exitError "ws events failed too frequently!"
  else .keepWaiting

/-- Mirrors `consts.KubeLabelYataiDeployment`, the label key read at
kube.go line 320.  Its literal value lives in an external module; only
key identity matters here. -/
def kubeLabelYataiDeployment : String := "yatai.ai/deployment"

/-- Which background tasks of a session have been started so far: the
inbound-read monitor goroutine, the informer event handler (cache-change
listener), and the watchdog loop. -/
structure TasksStarted where
  readMonitor : Bool
  cacheListener : Bool
  watchdog : Bool
deriving DecidableEq, Repr

/-- Outcomes of the external collaborators consulted during
`GetDeploymentKubeEvents` setup, in source order (kube.go lines 250-334).
Each `Option` is `none` when that call fails; `podNameQuery` is the
`pod_name` query parameter (`""` when absent). -/
structure DeploymentSetupEnv where
  getDeployment : Option String
  canView : Bool
  getCluster : Bool
  makeFilter : Option (KubeEvent → Bool)
  podNameQuery : String
  getKubeCliSet : Bool
  getPod : Option KubePod
  deploymentName : String
  getInformer : Bool

/-- Result of running setup: which tasks had been started when it ended,
and either the error it aborted with or the relevance filter it reached
streaming with. -/
structure SetupOutcome where
  started : TasksStarted
  result : Except String (KubeEvent → Bool)

/-- The setup sequence of `GetDeploymentKubeEvents` (kube.go lines
250-334), step by step in source order: resolve the deployment, check
authorization, start the closer and inbound-read-monitor goroutines
(lines 263-291), resolve the cluster, build the group filter, then — when
`pod_name` is supplied — get the client set, get the pod, check the pod's
deployment label and install the instance-override filter, and finally
acquire the event informer.  Any failure returns immediately with the
tasks started so far; the cache listener and watchdog only start after
setup succeeds. -/
def deploymentSetup (env : DeploymentSetupEnv) : SetupOutcome :=
  match env.getDeployment with
  | none => ⟨⟨false, false, false⟩, .error "get deployment"⟩
  | some _ =>
  if !env.canView then ⟨⟨false, false, false⟩, .error "forbidden"⟩
  else
  -- the closer and read-monitor goroutines are started here (lines 263-291),
  -- so from this point on `started` is ⟨true, false, false⟩
  if !env.getCluster then ⟨⟨true, false, false⟩, .error "get cluster"⟩
  else
  match env.makeFilter with
  | none => ⟨⟨true, false, false⟩, .error "make deployment kube event filter"⟩
  | some groupFilter =>
  if env.podNameQuery == "" then
    if !env.getInformer then ⟨⟨true, false, false⟩, .error "get event informer"⟩
    else ⟨⟨true, false, false⟩, .ok groupFilter⟩
  else
    if !env.getKubeCliSet then ⟨⟨true, false, false⟩, .error "get kube cli set"⟩
    else
    match env.getPod with
    | none => ⟨⟨true, false, false⟩, .error "get pod"⟩
    | some pod =>
    if labelGet pod.labels kubeLabelYataiDeployment != env.deploymentName then
      ⟨⟨true, false, false⟩,
        .error ("pod " ++ env.podNameQuery ++ " not in this deployment")⟩
    else
      if !env.getInformer then ⟨⟨true, false, false⟩, .error "get event informer"⟩
      else ⟨⟨true, false, false⟩, .ok (fun event =>
        event.kind == kubeEventResourceKindPod && event.uid == pod.uid)⟩

/-! Concrete fixtures used by counterexamples and witnesses. -/

/-- An event carrying only an explicit event time. -/
def evEventTimeOnly : KubeEvent := ⟨"Pod", "a", "ma", 100, 0, 0⟩

/-- An event carrying only a last-observed time. -/
def evLastOnly : KubeEvent := ⟨"Pod", "b", "mb", 0, 50, 0⟩

/-- An event carrying only a first-observed time. -/
def evFirstOnly : KubeEvent := ⟨"Pod", "c", "mc", 0, 0, 5⟩

/-- Two events with equal sort keys under both variants. -/
def evTieA : KubeEvent := ⟨"Pod", "ta", "mta", 0, 5, 0⟩

/-- Second event of the equal-key pair. -/
def evTieB : KubeEvent := ⟨"Pod", "tb", "mtb", 0, 5, 0⟩

/-- A single event pushed repeatedly in the dedup scenario. -/
def dupEvent : KubeEvent := ⟨"Pod", "u1", "same message", 5, 0, 0⟩

/-- A send invocation in which nothing goes wrong and the session is open. -/
def okSendEnv : SendEnv := ⟨false, false, some [dupEvent], true, 0⟩

/-- C3: the timestamp resolver prefers the explicit event time, then the
last-observed time, then the first-observed time, then the current
instant; in particular, with only the first-observed time set it returns
exactly that value. -/
theorem resolveTimestamp_fallback_chain (now : Nat) (e : KubeEvent) :
    (e.eventTime ≠ 0 → resolveTimestamp now e = e.eventTime) ∧
    (e.eventTime = 0 → e.lastTimestamp ≠ 0 →
      resolveTimestamp now e = e.lastTimestamp) ∧
    (e.eventTime = 0 → e.lastTimestamp = 0 → e.firstTimestamp ≠ 0 →
      resolveTimestamp now e = e.firstTimestamp) ∧
    (e.eventTime = 0 → e.lastTimestamp = 0 → e.firstTimestamp = 0 →
      resolveTimestamp now e = now) := by
  refine ⟨fun h1 => ?_, fun h1 h2 => ?_, fun h1 h2 h3 => ?_, fun h1 h2 h3 => ?_⟩ <;>
    simp [resolveTimestamp, h1]
  · simp [h2]
  · simp [h2, h3]
  · simp [h2, h3]

/-- Witness for C3: an event with only the first-observed timestamp set
resolves to exactly that timestamp. -/
theorem resolveTimestamp_fallback_chain_witness :
    resolveTimestamp 7 evFirstOnly = 5 :=
  (resolveTimestamp_fallback_chain 7 evFirstOnly).2.2.1 rfl rfl (by decide)

/-- Counterexample to C2: the single-resource variant's snapshot is not
sorted ascending by the resolved timestamp.  With an event whose only
timestamp is an explicit event time of 100 followed by one whose only
timestamp is a last-observed time of 50, the pod-variant build sorts by
`LastTimestamp` alone (keys 0 and 50) and leaves the pair in place, while
their resolved timestamps are 100 and 50 — descending. -/
theorem podSnapshot_not_sorted_by_resolved :
    ¬ List.Sorted (leByKey (resolveTimestamp 0))
      (buildPodSnapshot (fun _ => true) [evEventTimeOnly, evLastOnly]) := by
  decide

/-- C2 amended: each variant's build is a stable sort of its filtered
events — ascending by the resolved timestamp for the group variant, but
ascending by the last-observed timestamp alone for the single-resource
variant.  Each build is sorted by its own key, is a permutation of its
filtered input, and preserves the relative order of key-tied events. -/
theorem snapshot_builds_sorted (now : Nat) (filter : KubeEvent → Bool)
    (seen : List String) (events : List KubeEvent) :
    List.Sorted (leByKey (resolveTimestamp now))
      (buildDeploymentSnapshot now filter seen events) ∧
    (buildDeploymentSnapshot now filter seen events).Perm
      (events.filter (fun e => filter e && !(seen.contains e.message))) ∧
    (∀ a b : KubeEvent, resolveTimestamp now a ≤ resolveTimestamp now b →
      [a, b].Sublist
        (events.filter (fun e => filter e && !(seen.contains e.message))) →
      [a, b].Sublist (buildDeploymentSnapshot now filter seen events)) ∧
    List.Sorted (leByKey (fun e => e.lastTimestamp))
      (buildPodSnapshot filter events) ∧
    (buildPodSnapshot filter events).Perm (events.filter filter) ∧
    (∀ a b : KubeEvent, a.lastTimestamp ≤ b.lastTimestamp →
      [a, b].Sublist (events.filter filter) →
      [a, b].Sublist (buildPodSnapshot filter events)) :=
  ⟨List.sorted_insertionSort _ _, List.perm_insertionSort _ _,
    fun _ _ hab h => List.pair_sublist_insertionSort hab h,
    List.sorted_insertionSort _ _, List.perm_insertionSort _ _,
    fun _ _ hab h => List.pair_sublist_insertionSort hab h⟩

/-- Witness for the amended C2: at a concrete pair of key-tied events both
builds keep the pair in original order. -/
theorem snapshot_builds_sorted_witness :
    [evTieA, evTieB].Sublist
      (buildDeploymentSnapshot 0 (fun _ => true) [] [evTieA, evTieB]) ∧
    [evTieA, evTieB].Sublist
      (buildPodSnapshot (fun _ => true) [evTieA, evTieB]) :=
  ⟨(snapshot_builds_sorted 0 (fun _ => true) [] [evTieA, evTieB]).2.2.1
      evTieA evTieB (by decide) (by decide),
    (snapshot_builds_sorted 0 (fun _ => true) [] [evTieA, evTieB]).2.2.2.2.2
      evTieA evTieB (by decide) (by decide)⟩

/-- C9: with no `pod_name` query parameter the single-resource variant's
filter accepts every event, so the filtered set is the whole cached set
and the snapshot is a permutation of everything the lister returned. -/
theorem podEventFilter_none_accepts_all (events : List KubeEvent) :
    (∀ e, podEventFilter none e = true) ∧
    events.filter (podEventFilter none) = events ∧
    (buildPodSnapshot (podEventFilter none) events).Perm events := by
  have hfilter : events.filter (podEventFilter none) = events :=
    List.filter_eq_self.mpr (fun a _ => rfl)
  refine ⟨fun _ => rfl, hfilter, ?_⟩
  unfold buildPodSnapshot
  rw [hfilter]
  exact List.perm_insertionSort _ _

/-- C1: the group variant's `seen` map is created empty and never inserted
into, so an event whose message was already delivered in an earlier
snapshot is delivered again: two successful sends over a cache holding
one event yield two success envelopes both containing it, and the failure
counter stays at zero. -/
theorem duplicate_message_delivered_twice :
    runDeploymentSends (fun _ => true) [okSendEnv, okSendEnv] =
      (0, [WsWrite.success [dupEvent], WsWrite.success [dupEvent]]) := by
  rfl

/-- Counterexample to C4: the single-resource variant writes the success
envelope even when the cancellation signal is set immediately before the
write — it never re-checks `closeCh` after the initial select. -/
theorem podSend_writes_after_close_signal :
    (podSend false true (some [dupEvent]) true (fun _ => true)).writes =
      [WsWrite.success [dupEvent]] := by
  rfl

/-- C4 amended: the group variant re-checks the cancellation signal
immediately before writing and emits no success envelope when it is set
by then; both variants write nothing at all when the signal is already
set at invocation start.  The single-resource variant has no such
re-check (see the counterexample). -/
theorem close_signal_checks (cs cbw : Bool)
    (lr : Option (List KubeEvent)) (w : Bool) (now : Nat)
    (f : KubeEvent → Bool) (seen : List String) :
    (deploymentSend cs true lr w now f seen).writes.all
      (fun x => !x.isSuccess) = true ∧
    (deploymentSend true cbw lr w now f seen).writes = [] ∧
    (podSend true cbw lr w f).writes = [] := by
  refine ⟨?_, rfl, rfl⟩
  cases cs with
  | true => rfl
  | false => cases lr with
    | none => rfl
    | some events => rfl

/-- Helper for C6: the counts trace begins at the initial counter value. -/
theorem deploymentFailedCounts_head (filter : KubeEvent → Bool)
    (seen : List String) :
    ∀ (envs : List SendEnv) (c0 : Nat),
      (deploymentFailedCounts filter seen c0 envs).head? = some c0
  | [], _ => rfl
  | _ :: _, _ => rfl

/-- Helper for C6: adjacent counter values along any send history are
non-decreasing, because each send only ever adds its increment. -/
theorem deploymentFailedCounts_chain (filter : KubeEvent → Bool)
    (seen : List String) :
    ∀ (envs : List SendEnv) (c0 : Nat),
      List.Chain' (fun a b => a ≤ b)
        (deploymentFailedCounts filter seen c0 envs)
  | [], c0 => List.chain'_singleton c0
  | env :: rest, c0 => by
    show List.Chain' (fun a b => a ≤ b)
      (c0 :: deploymentFailedCounts filter seen
        (c0 + (deploymentSend env.closedAtStart env.closedBeforeWrite
          env.listResult env.writeOk env.now filter seen).failedInc) rest)
    refine List.chain'_cons'.mpr
      ⟨fun y hy => ?_, deploymentFailedCounts_chain filter seen rest _⟩
    rw [deploymentFailedCounts_head filter seen rest] at hy
    simp only [Option.mem_some_iff] at hy
    subst hy
    exact Nat.le_add_right _ _

/-- C6: the failure counter is non-decreasing along any send history (it
is never reset), and each send either fails — incrementing the counter by
exactly one and imposing the 10-second cooldown — or succeeds, leaving
the counter untouched with no cooldown; this holds for both variants. -/
theorem failure_counter_monotone (filter : KubeEvent → Bool)
    (seen : List String) (c0 : Nat) (envs : List SendEnv) (cs cbw : Bool)
    (lr : Option (List KubeEvent)) (w : Bool) (now : Nat) :
    List.Chain' (fun a b => a ≤ b)
      (deploymentFailedCounts filter seen c0 envs) ∧
    (((deploymentSend cs cbw lr w now filter seen).failedInc = 1 ∧
      (deploymentSend cs cbw lr w now filter seen).cooldownSecs = 10) ∨
     ((deploymentSend cs cbw lr w now filter seen).failedInc = 0 ∧
      (deploymentSend cs cbw lr w now filter seen).cooldownSecs = 0)) ∧
    (((podSend cs cbw lr w filter).failedInc = 1 ∧
      (podSend cs cbw lr w filter).cooldownSecs = 10) ∨
     ((podSend cs cbw lr w filter).failedInc = 0 ∧
      (podSend cs cbw lr w filter).cooldownSecs = 0)) := by
  refine ⟨deploymentFailedCounts_chain filter seen envs c0, ?_, ?_⟩ <;>
    cases cs <;> cases cbw <;> cases w <;> cases lr <;>
      simp [deploymentSend, podSend]

/-- C5: the watchdog loop exits with the "ws events failed too
frequently!" error exactly when the cumulative failure count has reached
`maxFailed + 1` (the count strictly exceeds the ceiling of 10); when the
close signal is set it exits silently instead; and once the close signal
is set, neither variant's send path writes anything again. -/
theorem watchdog_failure_ceiling (n : Nat) (cbw : Bool)
    (lr : Option (List KubeEvent)) (w : Bool) (now : Nat)
    (f : KubeEvent → Bool) (seen : List String) :
    (watchdogStep false n =
        WatchdogStep.exitError "ws events failed too frequently!" ↔
      maxFailed + 1 ≤ n) ∧
    watchdogStep true n = WatchdogStep.exitClosed ∧
    (deploymentSend true cbw lr w now f seen).writes = [] ∧
    (podSend true cbw lr w f).writes = [] := by
  refine ⟨?_, rfl, rfl, rfl⟩
  unfold watchdogStep maxFailed
  by_cases h : 10 < n
  · simp [h]
    omega
  · simp [h]
    omega

/-- Setup environment in which every collaborator succeeds except event
informer acquisition, with no pod selector supplied. -/
def envInformerFail : DeploymentSetupEnv :=
  ⟨some "deploy", true, true, some (fun _ => true), "", true, none,
    "deploy", false⟩

/-- Counterexample to C7: when cache/informer subscription acquisition
fails, the session aborts before streaming — but the inbound-read monitor
goroutine has already been started, so it is not the case that no
background task was started. -/
theorem setup_failure_with_read_monitor_started :
    (deploymentSetup envInformerFail).result =
      Except.error "get event informer" ∧
    (deploymentSetup envInformerFail).started.readMonitor = true := by
  exact ⟨rfl, rfl⟩

/-- C7 amended: on any setup failure the session aborts before streaming,
with the cache-change listener and watchdog never started; failures of
deployment resolution or the authorization check happen before any
background task is started, but by the time of cluster resolution, filter
construction, pod validation, or informer acquisition, the closer and
inbound-read-monitor goroutines are already running. -/
theorem setup_abort_task_states (env : DeploymentSetupEnv) :
    ((deploymentSetup env).started.cacheListener = false ∧
     (deploymentSetup env).started.watchdog = false) ∧
    (env.getDeployment = none →
      (deploymentSetup env).started = ⟨false, false, false⟩) ∧
    (env.canView = false →
      (deploymentSetup env).started = ⟨false, false, false⟩) ∧
    (∀ s, env.getDeployment = some s → env.canView = true →
      (deploymentSetup env).started = ⟨true, false, false⟩) := by
  refine ⟨?_, fun h => ?_, fun h => ?_, fun s hs hv => ?_⟩
  · unfold deploymentSetup
    repeat' split
    all_goals exact ⟨rfl, rfl⟩
  · unfold deploymentSetup
    rw [h]
  · unfold deploymentSetup
    rw [h]
    repeat' split
    all_goals first | rfl | simp_all
  · unfold deploymentSetup
    rw [hs, hv]
    repeat' split
    all_goals first | rfl | simp_all

/-- Witness for the amended C7: with deployment resolution and
authorization succeeding, the aborting informer-failure setup ends with
exactly the closer/read-monitor tasks running. -/
theorem setup_abort_task_states_witness :
    (deploymentSetup envInformerFail).started = ⟨true, false, false⟩ :=
  (setup_abort_task_states envInformerFail).2.2.2 "deploy" rfl rfl

/-- Setup environment naming a pod whose deployment label does not match
the session's deployment. -/
def envForeignPod : DeploymentSetupEnv :=
  ⟨some "deploy", true, true, some (fun _ => true), "p1", true,
    some ⟨"uid-p1", [(kubeLabelYataiDeployment, "other")]⟩, "deploy", true⟩

/-- C10: when a `pod_name` is supplied in the group variant and the named
pod's deployment label does not match the deployment, setup fails with
the "pod ... not in this deployment" error; streaming is never reached
and no instance-override filter is installed. -/
theorem foreign_pod_rejected_during_setup (env : DeploymentSetupEnv)
    (s : String) (f : KubeEvent → Bool) (pod : KubePod)
    (h1 : env.getDeployment = some s) (h2 : env.canView = true)
    (h3 : env.getCluster = true) (h4 : env.makeFilter = some f)
    (h5 : env.podNameQuery ≠ "") (h6 : env.getKubeCliSet = true)
    (h7 : env.getPod = some pod)
    (h8 : labelGet pod.labels kubeLabelYataiDeployment ≠ env.deploymentName) :
    deploymentSetup env =
      ⟨⟨true, false, false⟩,
        Except.error ("pod " ++ env.podNameQuery ++ " not in this deployment")⟩ := by
  unfold deploymentSetup
  rw [h1, h2, h3, h4, h6, h7]
  simp [h5, h8]

/-- Witness for C10: a concrete pod labelled for another deployment is
rejected with the membership error. -/
theorem foreign_pod_rejected_during_setup_witness :
    deploymentSetup envForeignPod =
      ⟨⟨true, false, false⟩,
        Except.error ("pod " ++ "p1" ++ " not in this deployment")⟩ :=
  foreign_pod_rejected_during_setup envForeignPod "deploy" (fun _ => true)
    ⟨"uid-p1", [(kubeLabelYataiDeployment, "other")]⟩ rfl rfl rfl rfl
    (by decide) rfl rfl (by decide)
